import Mathlib

/-!
# BotServer: scenario synchronisation and the two dispatch loops

A shallow embedding of `main.go`.

* The four record types (`VideoPlaybackTask`, `PlayerStatus`, `Script`,
  `Scenario`) are structures with the fields the source declares.
* Bytes that travel through `yaml.v2` or `encoding/json` are represented by
  the value tree the library's parser yields for them (or by `malformed` when
  the parser rejects them), so two texts that differ only in formatting are
  the same value here.  The decoders below follow the libraries' rules for
  decoding such a tree into the Go types of this program.
* `scenarios.yaml` is a `Storage` passed explicitly through
  `updateScriptSettings`.
* The two `for` loops run over a finite list of `NextMsg` results and
  produce the list of observable events (log lines and `Publish` calls).
-/

namespace BotServer

/-! ## Record types (main.go 14-33) -/

/-- A Go `float32`, carried as its 32-bit pattern; the program never computes
with it. -/
structure GoFloat32 where
  bits : Nat
deriving DecidableEq, Repr

/-- The struct `VideoPlaybackTask` (main.go 14-18). -/
structure VideoPlaybackTask where
  VideoID : String
  PlaybackSpeed : GoFloat32
deriving DecidableEq, Repr

/-- The struct `PlayerStatus` (main.go 20-24); `Position` is a Go `int`. -/
structure PlayerStatus where
  Position : Int
  Buffering : Bool
deriving DecidableEq, Repr

/-- The struct `Script` (main.go 26-29): its only declared field is
`ScriptID`. -/
structure Script where
  ScriptID : String
deriving DecidableEq, Repr

/-- The struct `Scenario` (main.go 31-33). -/
structure Scenario where
  Scripts : List Script
deriving DecidableEq, Repr

/-! ## YAML values and `yaml.v2` on `Scenario` -/

/-- How the YAML resolver classifies a scalar. -/
inductive YKind where
  | null
  | bool
  | int
  | float
  | timestamp
  | str
deriving DecidableEq, Repr

/-- A YAML node after aliases and merge keys have been expanded.  A mapping
is the list of its pairs in document order, each key a scalar given by its
text. -/
inductive YNode where
  | scalar (kind : YKind) (value : String)
  | seq (items : List YNode)
  | map (pairs : List (String × YNode))

/-- What the bytes of a YAML file are to the parser: rejected, holding no
document at all, or holding a document with the given root node. -/
inductive FileContent where
  | malformed
  | empty
  | doc (root : YNode)

/-- The two ways `yaml.Unmarshal` fails: the parser rejects the text, or a
node does not fit the Go type it is decoded into (`*yaml.TypeError`). -/
inductive YamlError where
  | parseError
  | typeError
deriving DecidableEq, Repr

/-- Decoding a node into a Go `string`: a null scalar sets the zero value,
any other scalar sets its text, a sequence or mapping is a type error. -/
def yamlString : YNode → Except YamlError String
  | .scalar .null _ => .ok ""
  | .scalar _ value => .ok value
  | .seq _ => .error .typeError
  | .map _ => .error .typeError

/-- One key/value pair of a mapping decoded into a `Script`: the key
`script_id` sets `ScriptID`, any other key is ignored (non-strict mode). -/
def yamlScriptField (out : Script) (kv : String × YNode) : Except YamlError Script :=
  if kv.1 = "script_id" then
    match yamlString kv.2 with
    | .ok s => .ok { out with ScriptID := s }
    | .error e => .error e
  else .ok out

/-- The pairs of a mapping applied in document order to a struct value. -/
def yamlFields {α : Type} (step : α → String × YNode → Except YamlError α) :
    α → List (String × YNode) → Except YamlError α
  | out, [] => .ok out
  | out, kv :: rest =>
    match step out kv with
    | .ok out1 => yamlFields step out1 rest
    | .error e => .error e

/-- Decoding a node into a `Script`, starting from the zero value: a null
scalar leaves the zero value, a mapping sets the fields it names, anything
else is a type error. -/
def yamlScript : YNode → Except YamlError Script
  | .scalar .null _ => .ok { ScriptID := "" }
  | .scalar _ _ => .error .typeError
  | .seq _ => .error .typeError
  | .map pairs => yamlFields yamlScriptField { ScriptID := "" } pairs

/-- The items of a sequence decoded one by one into `Script` values. -/
def yamlScriptItems : List YNode → Except YamlError (List Script)
  | [] => .ok []
  | n :: rest =>
    match yamlScript n with
    | .ok s =>
      match yamlScriptItems rest with
      | .ok ss => .ok (s :: ss)
      | .error e => .error e
    | .error e => .error e

/-- Decoding a node into a `[]Script`: a null scalar gives the nil slice, a
sequence gives one element per item, anything else is a type error. -/
def yamlScripts : YNode → Except YamlError (List Script)
  | .scalar .null _ => .ok []
  | .scalar _ _ => .error .typeError
  | .seq items => yamlScriptItems items
  | .map _ => .error .typeError

/-- One key/value pair of a mapping decoded into a `Scenario`: the key
`scripts` sets `Scripts`, any other key is ignored. -/
def yamlScenarioField (out : Scenario) (kv : String × YNode) : Except YamlError Scenario :=
  if kv.1 = "scripts" then
    match yamlScripts kv.2 with
    | .ok ss => .ok { out with Scripts := ss }
    | .error e => .error e
  else .ok out

/-- Decoding the root node into a `Scenario`, starting from the zero value. -/
def yamlScenario : YNode → Except YamlError Scenario
  | .scalar .null _ => .ok { Scripts := [] }
  | .scalar _ _ => .error .typeError
  | .seq _ => .error .typeError
  | .map pairs => yamlFields yamlScenarioField { Scripts := [] } pairs

/-- The call `yaml.Unmarshal(source, &scenario)` of main.go 155, with
`scenario` the zero value declared on line 149. -/
def yamlUnmarshal : FileContent → Except YamlError Scenario
  | .malformed => .error .parseError
  | .empty => .ok { Scripts := [] }
  | .doc root => yamlScenario root

/-- The mapping `yaml.Marshal` emits for one `Script`. -/
def yamlOfScript (s : Script) : YNode :=
  .map [("script_id", .scalar .str s.ScriptID)]

/-- The call `yaml.Marshal(scenario)` of main.go 167: a mapping with the one
key `scripts`, holding one mapping per script. -/
def yamlMarshal (scenario : Scenario) : Except YamlError FileContent :=
  .ok (.doc (.map [("scripts", .seq (scenario.Scripts.map yamlOfScript))]))

/-! ## The scan of `updateScriptSettings` (main.go 160-165) -/

/-- One iteration of the `range` loop.  The body of the `if` is empty in the
source, so the scenario is passed on as it is; the flag records that the
branch on line 162 was entered. -/
def scanStep (scriptChange : Script) (acc : Scenario × Bool) (script : Script) :
    Scenario × Bool :=
  if script.ScriptID = scriptChange.ScriptID then (acc.1, true) else acc

/-- The loop of main.go 161-165 over `scenario.Scripts`: the scenario after
the loop and whether some entry matched. -/
def scan (scriptChange : Script) (scenario : Scenario) : Scenario × Bool :=
  scenario.Scripts.foldl (scanStep scriptChange) (scenario, false)

/-! ## Storage and `updateScriptSettings` (main.go 147-177) -/

/-- The file `scenarios.yaml` as the program sees it: `file` is what
`ReadFile` returns (`none` when the read fails), `writable` tells whether
`WriteFile` succeeds, and `writes` lists the data of every `WriteFile` call
so far, oldest first. -/
structure Storage where
  file : Option FileContent
  writable : Bool
  writes : List FileContent

/-- The four wrapped errors `updateScriptSettings` returns. -/
inductive UpdateError where
  | reading
  | parsing
  | marshaling
  | writing
deriving DecidableEq, Repr

/-- The call `ioutil.WriteFile("scenarios.yaml", y, 0644)`: the call is
recorded; when it succeeds the file holds `y`, when it fails the file is
as before. -/
def writeFile (y : FileContent) (st : Storage) : Bool × Storage :=
  if st.writable then
    (true, { st with file := some y, writes := st.writes ++ [y] })
  else
    (false, { st with writes := st.writes ++ [y] })

/-- The function `updateScriptSettings`: the returned error (`none` for
`nil`) and the storage afterwards. -/
def updateScriptSettings (scriptChange : Script) (st : Storage) :
    Option UpdateError × Storage :=
  match st.file with
  | none => (some .reading, st)
  | some source =>
    match yamlUnmarshal source with
    | .error _ => (some .parsing, st)
    | .ok loaded =>
      let scenario := (scan scriptChange loaded).1
      match yamlMarshal scenario with
      | .error _ => (some .marshaling, st)
      | .ok y =>
        match writeFile y st with
        | (true, st1) => (none, st1)
        | (false, st1) => (some .writing, st1)

/-! ## What the specification says about the scan (spec 4.2) -/

/-- Spec 4.2, the merge rule: all fields present in the change are merged
into the entry, other fields stay.  The fields are those of `Script`. -/
def specMerge (entry change : Script) : Script :=
  { entry with ScriptID := change.ScriptID }

/-- Spec 4.2 on the entries: scan in order and merge the change into the
first entry with the change's identifier. -/
def specApplyEntries (change : Script) : List Script → List Script × Bool
  | [] => ([], false)
  | entry :: rest =>
    if entry.ScriptID = change.ScriptID then (specMerge entry change :: rest, true)
    else ((entry :: (specApplyEntries change rest).1), (specApplyEntries change rest).2)

/-- Spec 4.2, the operation `Apply(document, change)`: the updated document
and whether an entry was found. -/
def specApply (document : Scenario) (change : Script) : Scenario × Bool :=
  ({ Scripts := (specApplyEntries change document.Scripts).1 },
    (specApplyEntries change document.Scripts).2)

/-! ## JSON values and `encoding/json` on the program's types -/

/-- A JSON number literal: an integer literal (no fraction, no exponent)
with its value, or any other literal with its text. -/
inductive JNum where
  | int (n : Int)
  | other (literal : String)
deriving DecidableEq, Repr

/-- A JSON value; an object is the list of its members in text order. -/
inductive JVal where
  | null
  | bool (b : Bool)
  | num (n : JNum)
  | str (s : String)
  | arr (items : List JVal)
  | obj (members : List (String × JVal))

/-- What the bytes of a message are to the JSON decoder: rejected, or the
text of the given value. -/
inductive Payload where
  | malformed
  | json (v : JVal)

/-- The two ways `json.Unmarshal` fails: the text is not JSON, or a value
does not fit the Go type it is decoded into (`*json.UnmarshalTypeError`). -/
inductive JsonError where
  | malformed
  | typeMismatch
deriving DecidableEq, Repr

/-- One rune under simple case folding, as far as ASCII names can tell:
upper-case ASCII letters, the long s (U+017F) and the Kelvin sign (U+212A)
fold to lower-case ASCII letters. -/
def foldRune (c : Char) : Char :=
  if 'A' ≤ c ∧ c ≤ 'Z' then Char.ofNat (c.toNat + 32)
  else if c = Char.ofNat 0x17F then 's'
  else if c = Char.ofNat 0x212A then 'k'
  else c

/-- Whether an object key selects the struct field with the given
(lower-case ASCII) JSON name: the decoder matches names up to case. -/
def keyMatches (name key : String) : Bool :=
  key.toList.map foldRune = name.toList

/-- The members of an object applied in text order to a struct value. -/
def jsonFields {α : Type} (step : α → String × JVal → Except JsonError α) :
    α → List (String × JVal) → Except JsonError α
  | out, [] => .ok out
  | out, kv :: rest =>
    match step out kv with
    | .ok out1 => jsonFields step out1 rest
    | .error e => .error e

/-- Decoding a value into a struct: `null` leaves the struct as it is, an
object sets the fields it names, anything else is a type mismatch. -/
def jsonStruct {α : Type} (step : α → String × JVal → Except JsonError α) (zero : α) :
    Payload → Except JsonError α
  | .malformed => .error .malformed
  | .json .null => .ok zero
  | .json (.obj members) => jsonFields step zero members
  | .json _ => .error .typeMismatch

/-- Decoding a value into a Go `string` field holding `cur`. -/
def jsonString (cur : String) : JVal → Except JsonError String
  | .str s => .ok s
  | .null => .ok cur
  | _ => .error .typeMismatch

/-- Decoding a value into a Go `bool` field holding `cur`. -/
def jsonBool (cur : Bool) : JVal → Except JsonError Bool
  | .bool b => .ok b
  | .null => .ok cur
  | _ => .error .typeMismatch

/-- Decoding a value into a Go `int` field (64 bits) holding `cur`. -/
def jsonInt (cur : Int) : JVal → Except JsonError Int
  | .num (.int n) =>
    if -(2 : Int) ^ 63 ≤ n ∧ n < (2 : Int) ^ 63 then .ok n else .error .typeMismatch
  | .null => .ok cur
  | _ => .error .typeMismatch

/-- Decoding a value into a Go `float32` field holding `cur`; the
conversion of a number literal (`strconv.ParseFloat` at 32 bits, which
rejects what overflows) is the parameter `parseFloat32`. -/
def jsonFloat32 (parseFloat32 : JNum → Option GoFloat32) (cur : GoFloat32) :
    JVal → Except JsonError GoFloat32
  | .num n =>
    match parseFloat32 n with
    | some f => .ok f
    | none => .error .typeMismatch
  | .null => .ok cur
  | _ => .error .typeMismatch

/-- One member of an object decoded into a `VideoPlaybackTask`. -/
def jsonTaskField (parseFloat32 : JNum → Option GoFloat32) (out : VideoPlaybackTask)
    (kv : String × JVal) : Except JsonError VideoPlaybackTask :=
  if keyMatches "video_id" kv.1 then
    match jsonString out.VideoID kv.2 with
    | .ok s => .ok { out with VideoID := s }
    | .error e => .error e
  else if keyMatches "playback_speed" kv.1 then
    match jsonFloat32 parseFloat32 out.PlaybackSpeed kv.2 with
    | .ok f => .ok { out with PlaybackSpeed := f }
    | .error e => .error e
  else .ok out

/-- The call `json.Unmarshal(msg.Data, &task)` of main.go 91. -/
def jsonUnmarshalTask (parseFloat32 : JNum → Option GoFloat32) (data : Payload) :
    Except JsonError VideoPlaybackTask :=
  jsonStruct (jsonTaskField parseFloat32) { VideoID := "", PlaybackSpeed := { bits := 0 } } data

/-- One member of an object decoded into a `Script`. -/
def jsonScriptField (out : Script) (kv : String × JVal) : Except JsonError Script :=
  if keyMatches "script_id" kv.1 then
    match jsonString out.ScriptID kv.2 with
    | .ok s => .ok { out with ScriptID := s }
    | .error e => .error e
  else .ok out

/-- The call `json.Unmarshal(msg.Data, &scriptChange)` of main.go 129. -/
def jsonUnmarshalScript (data : Payload) : Except JsonError Script :=
  jsonStruct jsonScriptField { ScriptID := "" } data

/-- One member of an object decoded into a `PlayerStatus`. -/
def jsonStatusField (out : PlayerStatus) (kv : String × JVal) :
    Except JsonError PlayerStatus :=
  if keyMatches "position" kv.1 then
    match jsonInt out.Position kv.2 with
    | .ok n => .ok { out with Position := n }
    | .error e => .error e
  else if keyMatches "buffering" kv.1 then
    match jsonBool out.Buffering kv.2 with
    | .ok b => .ok { out with Buffering := b }
    | .error e => .error e
  else .ok out

/-- Decoding a message into a fresh `PlayerStatus` with `json.Unmarshal`,
as a consumer of `player.output` does. -/
def jsonUnmarshalStatus (data : Payload) : Except JsonError PlayerStatus :=
  jsonStruct jsonStatusField { Position := 0, Buffering := false } data

/-- The call `json.Marshal(status)` of main.go 107: an object with the
members `position` and `buffering`, in field order. -/
def jsonMarshalStatus (status : PlayerStatus) : Except JsonError Payload :=
  .ok (.json (.obj [("position", .num (.int status.Position)),
                    ("buffering", .bool status.Buffering)]))

/-- The map literal of main.go 180-182. -/
def acknowledgement : List (String × JVal) :=
  [("message", .str "Script change acknowledged")]

/-- The call `json.Marshal(acknowledgement)` of main.go 184. -/
def jsonMarshalMap (m : List (String × JVal)) : Except JsonError Payload :=
  .ok (.json (.obj m))

/-! ## The dispatch loops (main.go 82-145, 179-194) -/

/-- The result of `sub.NextMsg(time.Second)`: an error (a timeout among
others) or a message with its data. -/
inductive Recv where
  | failed
  | msg (data : Payload)

/-- What the broker does during one loop iteration: the result of `NextMsg`
and whether a `Publish` call made in this iteration returns `nil`. -/
structure Tick where
  recv : Recv
  publishOk : Bool

/-- An observable action of a loop: a line written with `log.Println`,
identified by its fixed leading text, or a call of `nc.Publish`. -/
inductive Event where
  | log (text : String)
  | publish (subject : String) (data : Payload)

/-- The `Publish` calls among the events, in order. -/
def publishCalls : List Event → List (String × Payload)
  | [] => []
  | .log _ :: rest => publishCalls rest
  | .publish subject data :: rest => (subject, data) :: publishCalls rest

/-- The status literal of main.go 102-105, built after the task was decoded. -/
def buildStatus (_task : VideoPlaybackTask) : PlayerStatus :=
  { Position := 60, Buffering := false }

/-- One iteration of the loop of `processPlayerInput` (main.go 84-116). -/
def playerIteration (parseFloat32 : JNum → Option GoFloat32) (t : Tick) : List Event :=
  match t.recv with
  | .failed => [.log "Error receiving player input message:"]
  | .msg data =>
    match jsonUnmarshalTask parseFloat32 data with
    | .error _ => [.log "Error parsing video playback task:"]
    | .ok task =>
      match jsonMarshalStatus (buildStatus task) with
      | .error _ => [.log "Playing video:", .log "Error marshaling player status:"]
      | .ok statusJSON =>
        if t.publishOk then
          [.log "Playing video:", .publish "player.output" statusJSON]
        else
          [.log "Playing video:", .publish "player.output" statusJSON,
           .log "Error publishing player status update:"]

/-- The loop of `processPlayerInput` run over the given `NextMsg` results. -/
def processPlayerInput (parseFloat32 : JNum → Option GoFloat32) : List Tick → List Event
  | [] => []
  | t :: rest => playerIteration parseFloat32 t ++ processPlayerInput parseFloat32 rest

/-- The function `sendScriptChangeAcknowledgement` (main.go 179-194). -/
def sendScriptChangeAcknowledgement (publishOk : Bool) : List Event :=
  match jsonMarshalMap acknowledgement with
  | .error _ => [.log "Error marshaling acknowledgement message:"]
  | .ok acknowledgementJSON =>
    if publishOk then [.publish "ui.input" acknowledgementJSON]
    else [.publish "ui.input" acknowledgementJSON,
          .log "Error publishing acknowledgement message:"]

/-- One iteration of the loop of `processScriptChanges` (main.go 122-143):
the events of the iteration and the storage afterwards. -/
def scriptIteration (t : Tick) (st : Storage) : List Event × Storage :=
  match t.recv with
  | .failed => ([.log "Error receiving UI output message:"], st)
  | .msg data =>
    match jsonUnmarshalScript data with
    | .error _ => ([.log "Error parsing script change:"], st)
    | .ok scriptChange =>
      match updateScriptSettings scriptChange st with
      | (some _, st1) =>
        ([.log "Script changed. New script ID:", .log "Error updating script settings:"], st1)
      | (none, st1) =>
        (.log "Script changed. New script ID:" :: sendScriptChangeAcknowledgement t.publishOk,
         st1)

/-- The loop of `processScriptChanges` run over the given `NextMsg` results. -/
def processScriptChanges : List Tick → Storage → List Event × Storage
  | [], st => ([], st)
  | t :: rest, st =>
    ((scriptIteration t st).1 ++ (processScriptChanges rest (scriptIteration t st).2).1,
     (processScriptChanges rest (scriptIteration t st).2).2)

/-! ## Observations on the loops -/

/-- The bytes `json.Marshal` gives for the status literal: the object with
`position` 60 and `buffering` false. -/
def statusPayload : Payload :=
  .json (.obj [("position", .num (.int 60)), ("buffering", .bool false)])

/-- The bytes `json.Marshal` gives for the acknowledgement map. -/
def acknowledgementPayload : Payload :=
  .json (.obj [("message", .str "Script change acknowledged")])

/-- Whether an iteration received a message whose data decodes as a
`VideoPlaybackTask`. -/
def decodesTask (parseFloat32 : JNum → Option GoFloat32) (t : Tick) : Bool :=
  match t.recv with
  | .failed => false
  | .msg data =>
    match jsonUnmarshalTask parseFloat32 data with
    | .ok _ => true
    | .error _ => false

/-- A conversion of number literals used in examples: integer literals from
0 to 3 are given the bit patterns of 0.0, 1.0, 2.0 and 3.0, every other
literal is refused. -/
def sampleFloat32 : JNum → Option GoFloat32
  | .int 0 => some { bits := 0 }
  | .int 1 => some { bits := 0x3F800000 }
  | .int 2 => some { bits := 0x40000000 }
  | .int 3 => some { bits := 0x40400000 }
  | _ => none

/-! ## Reading a persisted document -/

/-- The value a mapping holds under a key; of several pairs with the key the
last one counts. -/
def lookupKey (key : String) : List (String × YNode) → Option YNode
  | [] => none
  | kv :: rest =>
    match lookupKey key rest with
    | some v => some v
    | none => if kv.1 = key then some kv.2 else none

/-- The items of the `scripts` sequence of a document. -/
def scriptEntries : FileContent → List YNode
  | .doc (.map pairs) =>
    match lookupKey "scripts" pairs with
    | some (.seq items) => items
    | _ => []
  | _ => []

/-- The value of a field of the `i`-th script entry of a document. -/
def entryValue (d : FileContent) (i : Nat) (key : String) : Option YNode :=
  match (scriptEntries d)[i]? with
  | some (.map pairs) => lookupKey key pairs
  | _ => none

/-- The document of the scenario `s1`/`title`: one entry with `script_id: s1`
and `title: old`. -/
def s1Document : FileContent :=
  .doc (.map [("scripts", .seq [.map [("script_id", .scalar .str "s1"),
                                      ("title", .scalar .str "old")]])])

/-- What is saved for `s1Document`: one entry with `script_id: s1`. -/
def s1Saved : FileContent :=
  .doc (.map [("scripts", .seq [.map [("script_id", .scalar .str "s1")]])])

/-- A readable, writable storage holding `s1Document`. -/
def s1Storage : Storage :=
  { file := some s1Document, writable := true, writes := [] }

/-- A document with a top-level `name` and two entries, the first with the
extra field `title`. -/
def demoDocument : FileContent :=
  .doc (.map [("name", .scalar .str "demo"),
              ("scripts", .seq [.map [("script_id", .scalar .str "intro"),
                                      ("title", .scalar .str "Welcome")],
                                .map [("script_id", .scalar .str "outro")]])])

/-- What is saved for `demoDocument`. -/
def demoSaved : FileContent :=
  .doc (.map [("scripts", .seq [.map [("script_id", .scalar .str "intro")],
                                .map [("script_id", .scalar .str "outro")]])])

/-! ## Lemmas on the scan -/

/-- The loop never changes the scenario it carries. -/
theorem foldl_scanStep_fst (C : Script) (l : List Script) (acc : Scenario × Bool) :
    (l.foldl (scanStep C) acc).1 = acc.1 := by
  induction l generalizing acc with
  | nil => rfl
  | cons s rest ih =>
    simp only [List.foldl_cons]
    rw [ih]
    unfold scanStep
    split <;> rfl

/-- The flag after the loop: set before, or set by a matching entry. -/
theorem foldl_scanStep_snd (C : Script) (l : List Script) (acc : Scenario × Bool) :
    (l.foldl (scanStep C) acc).2
      = (acc.2 || l.any (fun s => decide (s.ScriptID = C.ScriptID))) := by
  induction l generalizing acc with
  | nil => simp
  | cons s rest ih =>
    simp only [List.foldl_cons, List.any_cons]
    rw [ih]
    unfold scanStep
    by_cases h : s.ScriptID = C.ScriptID
    · simp [h]
    · simp [h]

/-- The scan returns the scenario it was given. -/
theorem scan_fst (C : Script) (D : Scenario) : (scan C D).1 = D := by
  unfold scan
  rw [foldl_scanStep_fst]

/-- The scan reports a match exactly when some entry has the change's
identifier. -/
theorem scan_snd (C : Script) (D : Scenario) :
    (scan C D).2 = D.Scripts.any (fun s => decide (s.ScriptID = C.ScriptID)) := by
  unfold scan
  rw [foldl_scanStep_snd]
  simp

/-- Merging a change into an entry with the same identifier gives the entry
back: `ScriptID` is the only field. -/
theorem specMerge_of_eq (entry change : Script) (h : entry.ScriptID = change.ScriptID) :
    specMerge entry change = entry := by
  cases entry
  cases change
  simp_all [specMerge]

/-- The entries after the spec's `Apply` are the entries before. -/
theorem specApplyEntries_fst (C : Script) (l : List Script) :
    (specApplyEntries C l).1 = l := by
  induction l with
  | nil => rfl
  | cons s rest ih =>
    unfold specApplyEntries
    by_cases h : s.ScriptID = C.ScriptID
    · simp [h, specMerge_of_eq s C h]
    · simp [h, ih]

/-- The spec's `Apply` reports a match exactly when some entry has the
change's identifier. -/
theorem specApplyEntries_snd (C : Script) (l : List Script) :
    (specApplyEntries C l).2 = l.any (fun s => decide (s.ScriptID = C.ScriptID)) := by
  induction l with
  | nil => rfl
  | cons s rest ih =>
    unfold specApplyEntries
    by_cases h : s.ScriptID = C.ScriptID
    · simp [h]
    · simp [h, ih]

/-- On every document and change the scan of the source computes what the
spec's `Apply` computes. -/
theorem scan_eq_specApply (C : Script) (D : Scenario) : scan C D = specApply D C := by
  apply Prod.ext
  · rw [scan_fst]
    simp [specApply, specApplyEntries_fst]
  · rw [scan_snd]
    simp [specApply, specApplyEntries_snd]

/-! ## Claims about the scan -/

/-- C3: when no entry of the loaded document has the change's identifier,
the scan returns the document unchanged and reports that nothing was found. -/
theorem scan_no_match (D : Scenario) (C : Script)
    (h : ∀ s ∈ D.Scripts, s.ScriptID ≠ C.ScriptID) : scan C D = (D, false) := by
  apply Prod.ext
  · exact scan_fst C D
  · rw [scan_snd]
    simp only [List.any_eq_false, decide_eq_true_eq]
    exact h

/-- C3 at the document with entries `a`, `b` and the change `c`. -/
theorem scan_no_match_witness :
    (∀ s ∈ [Script.mk "a", Script.mk "b"], s.ScriptID ≠ (Script.mk "c").ScriptID) ∧
    scan (Script.mk "c") (Scenario.mk [Script.mk "a", Script.mk "b"])
      = (Scenario.mk [Script.mk "a", Script.mk "b"], false) :=
  ⟨by decide, scan_no_match _ _ (by decide)⟩

/-- C4: when exactly one entry of the loaded document, the one at position
`i`, has the change's identifier, the scan returns a document of the same
length with the same entries at every other position, whose entry at `i` is
the old entry with the change's fields merged in, and reports a match; it
agrees with the spec's `Apply`. -/
theorem scan_single_match (D : Scenario) (C : Script) (i : Nat)
    (hi : i < D.Scripts.length)
    (hmatch : D.Scripts[i].ScriptID = C.ScriptID)
    (_huniq : ∀ j (hj : j < D.Scripts.length), D.Scripts[j].ScriptID = C.ScriptID → j = i) :
    (scan C D).1.Scripts.length = D.Scripts.length ∧
    (∀ j, j ≠ i → (scan C D).1.Scripts[j]? = D.Scripts[j]?) ∧
    (scan C D).1.Scripts[i]? = some (specMerge D.Scripts[i] C) ∧
    (scan C D).2 = true ∧
    scan C D = specApply D C := by
  refine ⟨by rw [scan_fst], fun j _ => by rw [scan_fst], ?_, ?_, scan_eq_specApply C D⟩
  · rw [scan_fst, specMerge_of_eq _ _ hmatch]
    exact List.getElem?_eq_getElem hi
  · rw [scan_snd, List.any_eq_true]
    exact ⟨D.Scripts[i], List.getElem_mem hi, by simpa using hmatch⟩

/-- C4 at the document with entries `a`, `s1`, `b` and the change `s1`. -/
theorem scan_single_match_witness :
    (scan (Script.mk "s1") (Scenario.mk [Script.mk "a", Script.mk "s1", Script.mk "b"])).1.Scripts
      = [Script.mk "a", Script.mk "s1", Script.mk "b"] ∧
    (scan (Script.mk "s1") (Scenario.mk [Script.mk "a", Script.mk "s1", Script.mk "b"])).2
      = true := by
  have h := scan_single_match (Scenario.mk [Script.mk "a", Script.mk "s1", Script.mk "b"])
    (Script.mk "s1") 1 (by decide) (by decide)
    (by
      intro j hj hj2
      have hj3 : j < 3 := hj
      interval_cases j
      · simp at hj2
      · rfl
      · simp at hj2)
  refine ⟨?_, h.2.2.2.1⟩
  rw [h.2.2.2.2]
  decide

/-- C5: for a change whose fields equal those of an entry of the document,
applying the scan to its own result gives the same result again, and that
result is the document itself (with a match reported). -/
theorem scan_idempotent (D : Scenario) (C : Script) (h : C ∈ D.Scripts) :
    scan C (scan C D).1 = scan C D ∧ scan C D = (D, true) := by
  have hfst : (scan C D).1 = D := scan_fst C D
  refine ⟨by rw [hfst], ?_⟩
  apply Prod.ext
  · exact hfst
  · rw [scan_snd, List.any_eq_true]
    exact ⟨C, h, by simp⟩

/-- C5 at the document with entries `a`, `b` and the change `b`. -/
theorem scan_idempotent_witness :
    Script.mk "b" ∈ [Script.mk "a", Script.mk "b"] ∧
    scan (Script.mk "b") (scan (Script.mk "b") (Scenario.mk [Script.mk "a", Script.mk "b"])).1
      = (Scenario.mk [Script.mk "a", Script.mk "b"], true) := by
  have h := scan_idempotent (Scenario.mk [Script.mk "a", Script.mk "b"]) (Script.mk "b")
    (by decide)
  exact ⟨by decide, h.1.trans h.2⟩

/-! ## Lemmas on the YAML round trip -/

/-- A mapping emitted for a script decodes to that script. -/
theorem yamlScript_yamlOfScript (s : Script) : yamlScript (yamlOfScript s) = .ok s := by
  cases s
  simp [yamlOfScript, yamlScript, yamlFields, yamlScriptField, yamlString]

/-- The emitted sequence decodes to the scripts it was emitted for. -/
theorem yamlScriptItems_map (l : List Script) :
    yamlScriptItems (l.map yamlOfScript) = .ok l := by
  induction l with
  | nil => rfl
  | cons s rest ih =>
    simp [yamlScriptItems, yamlScript_yamlOfScript, ih]

/-- Saving never fails, and loading what was saved gives the scenario back. -/
theorem yamlUnmarshal_yamlMarshal (s : Scenario) :
    ∃ y, yamlMarshal s = .ok y ∧ yamlUnmarshal y = .ok s := by
  refine ⟨_, rfl, ?_⟩
  cases s
  simp [yamlUnmarshal, yamlScenario, yamlFields, yamlScenarioField, yamlScripts,
    yamlScriptItems_map]

/-! ## Claims about the scenario file -/

/-- C1 as stated fails: on the document holding the entry with `script_id: s1`
and `title: old`, the update cycle for the change `s1` succeeds, but the
persisted document is not the one it started from: the entry has lost its
title. -/
theorem s1_title_not_kept :
    (updateScriptSettings (Script.mk "s1") s1Storage).1 = none ∧
    (updateScriptSettings (Script.mk "s1") s1Storage).2.file = some s1Saved ∧
    entryValue s1Document 0 "title" = some (.scalar .str "old") ∧
    entryValue s1Saved 0 "title" = none ∧
    (updateScriptSettings (Script.mk "s1") s1Storage).2.file ≠ s1Storage.file := by
  refine ⟨rfl, rfl, rfl, rfl, ?_⟩
  show some s1Saved ≠ some s1Document
  simp [s1Saved, s1Document]

/-- C1, amended: on that document the update cycle for the change `s1` loads
the single script `s1`, finds a match, returns no error and writes back the
document whose single entry carries `script_id: s1` and nothing else. -/
theorem s1_cycle :
    yamlUnmarshal s1Document = .ok (Scenario.mk [Script.mk "s1"]) ∧
    scan (Script.mk "s1") (Scenario.mk [Script.mk "s1"])
      = (Scenario.mk [Script.mk "s1"], true) ∧
    updateScriptSettings (Script.mk "s1") s1Storage
      = (none, { file := some s1Saved, writable := true, writes := [s1Saved] }) ∧
    entryValue s1Saved 0 "script_id" = some (.scalar .str "s1") ∧
    (scriptEntries s1Saved).length = 1 :=
  ⟨rfl, rfl, rfl, rfl, rfl⟩

/-- C2 as stated fails: `demoDocument` parses, and loading it and saving it
back gives `demoSaved`, in which the first entry has no `title` and the
top-level `name` is gone. -/
theorem demo_roundtrip_loses_fields :
    yamlUnmarshal demoDocument = .ok (Scenario.mk [Script.mk "intro", Script.mk "outro"]) ∧
    yamlMarshal (Scenario.mk [Script.mk "intro", Script.mk "outro"]) = .ok demoSaved ∧
    entryValue demoDocument 0 "title" = some (.scalar .str "Welcome") ∧
    entryValue demoSaved 0 "title" = none ∧
    demoSaved ≠ demoDocument := by
  refine ⟨rfl, rfl, rfl, rfl, ?_⟩
  simp [demoSaved, demoDocument]

/-- C2, amended: for every persisted document that parses, saving the loaded
scenario succeeds, the saved document has one entry per loaded script, in
order, each carrying exactly the loaded `script_id`, and loading the saved
document gives the same scenario again. -/
theorem load_save_load (d : FileContent) (s : Scenario) (h : yamlUnmarshal d = .ok s) :
    ∃ y, yamlMarshal s = .ok y ∧
      scriptEntries y = s.Scripts.map (fun e => YNode.map [("script_id", .scalar .str e.ScriptID)]) ∧
      yamlUnmarshal y = yamlUnmarshal d := by
  obtain ⟨y, hy, hload⟩ := yamlUnmarshal_yamlMarshal s
  refine ⟨y, hy, ?_, by rw [hload, h]⟩
  cases hy
  rfl

/-- C2, amended, at `demoDocument`. -/
theorem load_save_load_witness :
    yamlUnmarshal demoDocument = .ok (Scenario.mk [Script.mk "intro", Script.mk "outro"]) ∧
    ∃ y, yamlMarshal (Scenario.mk [Script.mk "intro", Script.mk "outro"]) = .ok y ∧
      scriptEntries y = [YNode.map [("script_id", .scalar .str "intro")],
                         YNode.map [("script_id", .scalar .str "outro")]] ∧
      yamlUnmarshal y = yamlUnmarshal demoDocument :=
  ⟨rfl, load_save_load demoDocument _ rfl⟩

/-- C8: whenever the scenario file can be read, parsed, serialised again and
written, `updateScriptSettings` returns `nil` after one `WriteFile` call that
puts the serialised loaded document into the file, whatever the change is and
whether or not an entry matches it. -/
theorem update_rewrites_document (C : Script) (st : Storage) (source y : FileContent)
    (loaded : Scenario)
    (hread : st.file = some source)
    (hparse : yamlUnmarshal source = .ok loaded)
    (hsave : yamlMarshal loaded = .ok y)
    (hwrite : st.writable = true) :
    updateScriptSettings C st
      = (none, { file := some y, writable := st.writable, writes := st.writes ++ [y] }) := by
  unfold updateScriptSettings
  simp only [hread, hparse, scan_fst, hsave]
  simp [writeFile, hwrite]

/-- C8 at `s1Storage`, once with a matching change and once with one that
matches no entry. -/
theorem update_rewrites_document_witness :
    updateScriptSettings (Script.mk "s1") s1Storage
      = (none, { file := some s1Saved, writable := true, writes := [] ++ [s1Saved] }) ∧
    (scan (Script.mk "s1") (Scenario.mk [Script.mk "s1"])).2 = true ∧
    (scan (Script.mk "zz") (Scenario.mk [Script.mk "s1"])).2 = false ∧
    updateScriptSettings (Script.mk "zz") s1Storage
      = (none, { file := some s1Saved, writable := true, writes := [] ++ [s1Saved] }) :=
  ⟨update_rewrites_document (Script.mk "s1") s1Storage s1Document s1Saved
      (Scenario.mk [Script.mk "s1"]) rfl rfl rfl rfl,
    rfl, rfl, rfl⟩

/-- C9: when reading the scenario file fails, `updateScriptSettings` returns
the read error, and when its content does not parse into `Scenario`, the
parse error; in both cases the storage is as before: the file is unchanged
and no `WriteFile` call was made. -/
theorem update_load_failure (C : Script) (st : Storage) :
    (st.file = none → updateScriptSettings C st = (some .reading, st)) ∧
    (∀ source e, st.file = some source → yamlUnmarshal source = .error e →
      updateScriptSettings C st = (some .parsing, st)) := by
  constructor
  · intro h
    simp [updateScriptSettings, h]
  · intro source e hread hparse
    simp [updateScriptSettings, hread, hparse]

/-- C9 at an unreadable file, at a file the parser rejects, and at a file
whose `scripts` value is a plain scalar. -/
theorem update_load_failure_witness :
    updateScriptSettings (Script.mk "s1") { file := none, writable := true, writes := [] }
      = (some .reading, { file := none, writable := true, writes := [] }) ∧
    updateScriptSettings (Script.mk "s1")
        { file := some .malformed, writable := true, writes := [] }
      = (some .parsing, { file := some .malformed, writable := true, writes := [] }) ∧
    updateScriptSettings (Script.mk "s1")
        { file := some (.doc (.map [("scripts", .scalar .str "none")])), writable := true,
          writes := [] }
      = (some .parsing,
          { file := some (.doc (.map [("scripts", .scalar .str "none")])), writable := true,
            writes := [] }) :=
  ⟨(update_load_failure _ _).1 rfl,
    (update_load_failure _ _).2 _ .parseError rfl rfl,
    (update_load_failure _ _).2 _ .typeError rfl rfl⟩

/-! ## Lemmas on the loops -/

/-- The `Publish` calls of two runs of events, one after the other. -/
theorem publishCalls_append (a b : List Event) :
    publishCalls (a ++ b) = publishCalls a ++ publishCalls b := by
  induction a with
  | nil => rfl
  | cons e rest ih =>
    cases e with
    | log text => simpa [publishCalls] using ih
    | publish subject data => simp [publishCalls, ih]

/-- The `Publish` calls of one iteration of `processPlayerInput`: one call
with the status on `player.output` when a message was received and decoded,
none otherwise. -/
theorem publishCalls_playerIteration (pf : JNum → Option GoFloat32) (t : Tick) :
    publishCalls (playerIteration pf t)
      = if decodesTask pf t = true then [("player.output", statusPayload)] else [] := by
  obtain ⟨recv, publishOk⟩ := t
  cases recv with
  | failed => rfl
  | msg data =>
    rcases hdec : jsonUnmarshalTask pf data with e | task
    · simp [playerIteration, decodesTask, hdec, publishCalls]
    · cases publishOk <;>
        simp [playerIteration, decodesTask, hdec, publishCalls, jsonMarshalStatus, buildStatus,
          statusPayload]

/-- Every `PlayerStatus` whose position fits a Go `int` is decoded back from
its encoding. -/
theorem jsonUnmarshalStatus_jsonMarshalStatus (s : PlayerStatus)
    (h : -(2 : Int) ^ 63 ≤ s.Position ∧ s.Position < (2 : Int) ^ 63) :
    ∃ b, jsonMarshalStatus s = .ok b ∧ jsonUnmarshalStatus b = .ok s := by
  refine ⟨_, rfl, ?_⟩
  have h1 : keyMatches "position" "position" = true := by rfl
  have h2 : keyMatches "position" "buffering" = false := by rfl
  have h3 : keyMatches "buffering" "buffering" = true := by rfl
  norm_num at h
  simp [jsonUnmarshalStatus, jsonStruct, jsonFields, jsonStatusField, h1, h2, h3, jsonInt,
    jsonBool, h]

/-! ## Claims about the loops -/

/-- C6: a message on `player.input` whose data does not decode as a
`VideoPlaybackTask` makes the iteration log the parse error, call `Publish`
not at all, and hand over to the next iteration; over any sequence of
`NextMsg` results the `Publish` calls are one per decodable message, in
receive order, each with the status on `player.output`. -/
theorem malformed_player_input_dropped (pf : JNum → Option GoFloat32) :
    (∀ (data : Payload) (publishOk : Bool) (rest : List Tick),
      (∀ task, jsonUnmarshalTask pf data ≠ .ok task) →
      playerIteration pf { recv := .msg data, publishOk := publishOk }
        = [.log "Error parsing video playback task:"] ∧
      publishCalls (playerIteration pf { recv := .msg data, publishOk := publishOk }) = [] ∧
      processPlayerInput pf ({ recv := .msg data, publishOk := publishOk } :: rest)
        = .log "Error parsing video playback task:" :: processPlayerInput pf rest) ∧
    (∀ ticks : List Tick,
      publishCalls (processPlayerInput pf ticks)
        = ((ticks.filter (decodesTask pf)).map (fun _ => ("player.output", statusPayload)))) := by
  constructor
  · intro data publishOk rest hbad
    have hit : playerIteration pf { recv := .msg data, publishOk := publishOk }
        = [.log "Error parsing video playback task:"] := by
      unfold playerIteration
      simp only
      cases hdec : jsonUnmarshalTask pf data with
      | error e => rfl
      | ok task => exact absurd hdec (hbad task)
    refine ⟨hit, by rw [hit]; rfl, ?_⟩
    show playerIteration pf _ ++ processPlayerInput pf rest = _
    rw [hit]
    rfl
  · intro ticks
    induction ticks with
    | nil => rfl
    | cons t rest ih =>
      show publishCalls (playerIteration pf t ++ processPlayerInput pf rest) = _
      rw [publishCalls_append, publishCalls_playerIteration, ih]
      by_cases hd : decodesTask pf t = true
      · simp [List.filter_cons, hd]
      · simp [List.filter_cons, hd]

/-- C6 at a run of five iterations: a rejected text, a task, a failed
receive, a JSON string, and a task whose `Publish` fails. -/
theorem malformed_player_input_dropped_witness :
    (∀ task, jsonUnmarshalTask sampleFloat32 .malformed ≠ .ok task) ∧
    publishCalls (playerIteration sampleFloat32 { recv := .msg .malformed, publishOk := true })
      = [] ∧
    publishCalls (processPlayerInput sampleFloat32
        [{ recv := .msg .malformed, publishOk := true },
         { recv := .msg (.json (.obj [("video_id", .str "v1"), ("playback_speed", .num (.int 2))])),
           publishOk := true },
         { recv := .failed, publishOk := true },
         { recv := .msg (.json (.str "v2")), publishOk := true },
         { recv := .msg (.json (.obj [("Video_ID", .str "v3")])), publishOk := false }])
      = [("player.output", statusPayload), ("player.output", statusPayload)] := by
  have hbad : ∀ task, jsonUnmarshalTask sampleFloat32 .malformed ≠ .ok task := by
    intro task h
    cases h
  exact ⟨hbad,
    ((malformed_player_input_dropped sampleFloat32).1 .malformed true [] hbad).2.1,
    (malformed_player_input_dropped sampleFloat32).2 _⟩

/-- C7: whatever the task, the status built in `processPlayerInput` is the
record with position 60 and buffering false; it encodes to the JSON object
with these two members, and decoding that object gives the record back. -/
theorem status_constant_roundtrip (task : VideoPlaybackTask) :
    buildStatus task = { Position := 60, Buffering := false } ∧
    jsonMarshalStatus (buildStatus task) = .ok statusPayload ∧
    jsonUnmarshalStatus statusPayload = .ok (buildStatus task) :=
  ⟨rfl, rfl, rfl⟩

/-- C10: for a message received on `ui.output`, the iteration of
`processScriptChanges` calls `Publish` exactly once, on `ui.input` with the
fixed acknowledgement, when the data decodes as a `Script` and
`updateScriptSettings` returns `nil`; it calls `Publish` not at all when
`updateScriptSettings` returns an error or the data does not decode.  In
each case the storage is left as `updateScriptSettings` left it. -/
theorem acknowledgement_iff_update_succeeded (data : Payload) (publishOk : Bool)
    (st : Storage) :
    (∀ scriptChange, jsonUnmarshalScript data = .ok scriptChange →
      (updateScriptSettings scriptChange st).1 = none →
      publishCalls (scriptIteration { recv := .msg data, publishOk := publishOk } st).1
        = [("ui.input", acknowledgementPayload)] ∧
      (scriptIteration { recv := .msg data, publishOk := publishOk } st).2
        = (updateScriptSettings scriptChange st).2) ∧
    (∀ scriptChange err, jsonUnmarshalScript data = .ok scriptChange →
      (updateScriptSettings scriptChange st).1 = some err →
      publishCalls (scriptIteration { recv := .msg data, publishOk := publishOk } st).1 = [] ∧
      (scriptIteration { recv := .msg data, publishOk := publishOk } st).2
        = (updateScriptSettings scriptChange st).2) ∧
    (∀ e, jsonUnmarshalScript data = .error e →
      publishCalls (scriptIteration { recv := .msg data, publishOk := publishOk } st).1 = [] ∧
      (scriptIteration { recv := .msg data, publishOk := publishOk } st).2 = st) := by
  refine ⟨?_, ?_, ?_⟩
  · intro scriptChange hdec hnil
    unfold scriptIteration
    simp only [hdec]
    cases hu : updateScriptSettings scriptChange st with
    | mk r st1 =>
      rw [hu] at hnil
      simp only at hnil
      subst hnil
      cases publishOk <;> exact ⟨rfl, rfl⟩
  · intro scriptChange err hdec herr
    unfold scriptIteration
    simp only [hdec]
    cases hu : updateScriptSettings scriptChange st with
    | mk r st1 =>
      rw [hu] at herr
      simp only at herr
      subst herr
      exact ⟨rfl, rfl⟩
  · intro e hdec
    simp [scriptIteration, hdec, publishCalls]

/-- C10 at three messages: a change for `s1` on `s1Storage`, the same change
on a storage whose file cannot be written, and a JSON number. -/
theorem acknowledgement_iff_update_succeeded_witness :
    publishCalls (scriptIteration
        { recv := .msg (.json (.obj [("script_id", .str "s1")])), publishOk := true }
        s1Storage).1
      = [("ui.input", acknowledgementPayload)] ∧
    publishCalls (scriptIteration
        { recv := .msg (.json (.obj [("script_id", .str "s1")])), publishOk := true }
        { file := some s1Document, writable := false, writes := [] }).1
      = [] ∧
    publishCalls (scriptIteration
        { recv := .msg (.json (.num (.int 7))), publishOk := true } s1Storage).1
      = [] :=
  ⟨((acknowledgement_iff_update_succeeded (.json (.obj [("script_id", .str "s1")])) true
        s1Storage).1 (Script.mk "s1") rfl rfl).1,
    ((acknowledgement_iff_update_succeeded (.json (.obj [("script_id", .str "s1")])) true
        { file := some s1Document, writable := false, writes := [] }).2.1
      (Script.mk "s1") .writing rfl rfl).1,
    ((acknowledgement_iff_update_succeeded (.json (.num (.int 7))) true s1Storage).2.2
      .typeMismatch rfl).1⟩

end BotServer
